import Mathlib

/-!
Shallow embedding of the synchronization jobs of this repository
(src/sync_products.py, src/sync_orders.py, src/sync_boletos.py,
src/sync_customers.py, src/main.py): the record transformers, the
reference resolvers, the pagination clients, the batched writers and the
transaction wrappers, together with proofs about idempotence, run-level
atomicity, per-record error isolation, natural-key normalization,
monetary exactness, date normalization, pagination and run summaries.
-/

/-- Scalar values as they appear in the JSON payloads returned by the
remote API and in database rows: null, string, integer or boolean. -/
inductive PyVal where
  | vNone : PyVal
  | vStr : String → PyVal
  | vInt : Int → PyVal
  | vBool : Bool → PyVal
deriving DecidableEq

/-- Python truthiness of a scalar: None, the empty string, 0 and False
are falsy, everything else is truthy. -/
def pyTruthy : PyVal → Bool
  | PyVal.vNone => false
  | PyVal.vStr s => s != ""
  | PyVal.vInt n => n != 0
  | PyVal.vBool b => b

/-- The str() conversion of a scalar, as Python renders it. -/
def pyStr : PyVal → String
  | PyVal.vNone => "None"
  | PyVal.vStr s => s
  | PyVal.vInt n => toString n
  | PyVal.vBool b => if b then "True" else "False"

/-- The whitespace characters removed by the Python str.strip method
(the ASCII ones, which are the ones occurring in the payloads). -/
def pyWhitespace (c : Char) : Bool :=
  c ∈ [' ', '\t', '\n', '\r', '\x0b', '\x0c']

/-- The Python str.strip method: leading and trailing whitespace
removed. -/
def pyStrip (s : String) : String :=
  String.mk (((s.data.dropWhile (fun c => pyWhitespace c)).reverse.dropWhile
    (fun c => pyWhitespace c)).reverse)

/-- The Python str.lower method on the ASCII strings of the payloads:
each character lower-cased. -/
def pyLower (s : String) : String :=
  String.mk (s.data.map Char.toLower)

/-- One loosely-typed record of the remote API (a JSON object): a list of
key/scalar pairs, looked up by its first occurrence of a key, like a
Python dict. -/
abbrev RawItem := List (String × PyVal)

/-- dict.get with no default: the value at the key, if the key is present. -/
def pyGetOpt (item : RawItem) (k : String) : Option PyVal :=
  (item.find? (fun p => p.1 == k)).map (fun p => p.2)

/-- dict.get with a default value. -/
def pyGet (item : RawItem) (k : String) (d : PyVal) : PyVal :=
  (pyGetOpt item k).getD d

/-- Membership test for a key in a record (the Python `in` operator). -/
def pyHas (item : RawItem) (k : String) : Bool :=
  (pyGetOpt item k).isSome

/-- The exceptions the transformers and writers can raise: KeyError and
ValueError (the two caught by the per-record handlers), TypeError,
AttributeError, decimal.InvalidOperation (none of which the per-record
handlers catch), and a unique-key violation raised by a plain INSERT. -/
inductive PyErr where
  | keyError : PyErr
  | valueError : PyErr
  | typeError : PyErr
  | attributeError : PyErr
  | invalidOperation : PyErr
  | uniqueViolation : PyErr
deriving DecidableEq

/-- True exactly for the exception classes caught by the per-record
handlers `except (KeyError, ValueError)` of the transformers. -/
def caughtByRecordHandler (e : PyErr) : Bool :=
  e == PyErr.keyError || e == PyErr.valueError

/-- A fixed-point decimal: an integer mantissa and a decimal scale, the
represented number being mant / 10 ^ scale. This is the embedding of the
values produced by decimal.Decimal in the transformers. -/
structure FixedDec where
  mant : Int
  scale : Nat
deriving DecidableEq

/-- The exact rational value of a fixed-point decimal. -/
def FixedDec.val (d : FixedDec) : ℚ :=
  (d.mant : ℚ) / (10 : ℚ) ^ d.scale

/-- Exact addition of fixed-point decimals, aligning the scales; Decimal
addition in the source is exact on these operands. -/
def FixedDec.add (a b : FixedDec) : FixedDec :=
  let s := max a.scale b.scale
  ⟨a.mant * (10 : Int) ^ (s - a.scale) + b.mant * (10 : Int) ^ (s - b.scale), s⟩

/-- Numeric value of a decimal digit character. -/
def digitVal (c : Char) : Nat := c.toNat - Char.toNat '0'

/-- The natural number denoted by a list of decimal digit characters. -/
def natOfDigits (cs : List Char) : Nat :=
  cs.foldl (fun a c => a * 10 + digitVal c) 0

/-- Modelled from the spec: the decimal.Decimal constructor applied to a
string (the source parses money only through this string intermediate).
It accepts an optional sign, then digits with an optional fractional
part, at least one digit in total; any other string raises
decimal.InvalidOperation, modelled as the None result. Exponent forms,
surrounding whitespace and the special values of the Decimal class do
not occur in the payloads the claims are about and are not modelled. -/
def parseDec (s : String) : Option FixedDec :=
  let p : Int × List Char :=
    match s.data with
    | '+' :: t => (1, t)
    | '-' :: t => (-1, t)
    | t => (1, t)
  let ip := p.2.takeWhile (fun c => c.isDigit)
  let rest := p.2.dropWhile (fun c => c.isDigit)
  match rest with
  | [] =>
    if ip.isEmpty then Option.none
    else some ⟨p.1 * (natOfDigits ip : Int), 0⟩
  | '.' :: fr =>
    let fp := fr.takeWhile (fun c => c.isDigit)
    let rest2 := fr.dropWhile (fun c => c.isDigit)
    if rest2.isEmpty && !(ip.isEmpty && fp.isEmpty) then
      some ⟨p.1 * (natOfDigits (ip ++ fp) : Int), fp.length⟩
    else Option.none
  | _ => Option.none

/-- A calendar date, the result of datetime.fromisoformat(...).date(). -/
structure CalDate where
  year : Nat
  month : Nat
  day : Nat
deriving DecidableEq

/-- Validity of a UTC-offset suffix of an ISO time string: a sign
followed by HH:MM within range. -/
def validOffset (cs : List Char) : Bool :=
  match cs with
  | [sg, h1, h2, ':', m1, m2] =>
    (sg == '+' || sg == '-') && h1.isDigit && h2.isDigit && m1.isDigit && m2.isDigit
      && natOfDigits [h1, h2] < 24 && natOfDigits [m1, m2] < 60
  | _ => false

/-- Validity of the time-of-day part of an ISO string: HH:MM, optional
seconds, optional fraction after the seconds, optional UTC offset. -/
def validTime (cs : List Char) : Bool :=
  match cs with
  | h1 :: h2 :: ':' :: m1 :: m2 :: rest =>
    h1.isDigit && h2.isDigit && m1.isDigit && m2.isDigit
      && natOfDigits [h1, h2] < 24 && natOfDigits [m1, m2] < 60
      && (match rest with
          | [] => true
          | ':' :: s1 :: s2 :: rest2 =>
            s1.isDigit && s2.isDigit && natOfDigits [s1, s2] < 60
              && (match rest2 with
                  | [] => true
                  | '.' :: fs =>
                    let fd := fs.takeWhile (fun c => c.isDigit)
                    let r3 := fs.dropWhile (fun c => c.isDigit)
                    !fd.isEmpty && (r3.isEmpty || validOffset r3)
                  | other => validOffset other)
          | other => validOffset other)
  | _ => false

/-- Modelled from the spec: datetime.fromisoformat followed by .date(),
the date parser of the transformers, which is not part of src/. Per the
spec, dates are parsed from an ISO-8601-like string and a trailing
literal Z zone marker must be normalized to a +00:00 offset before
parsing, so the parser itself accepts YYYY-MM-DD, optionally followed by
a one-character separator and a time with an optional numeric +HH:MM or
-HH:MM offset, and rejects a bare Z marker (None result = ValueError).
Day-of-month validity is approximated as 1..31. -/
def fromisoformat (s : String) : Option CalDate :=
  match s.data with
  | y1 :: y2 :: y3 :: y4 :: c1 :: m1 :: m2 :: c2 :: d1 :: d2 :: rest =>
    if y1.isDigit && y2.isDigit && y3.isDigit && y4.isDigit && c1 == '-'
        && m1.isDigit && m2.isDigit && c2 == '-' && d1.isDigit && d2.isDigit then
      let m := natOfDigits [m1, m2]
      let d := natOfDigits [d1, d2]
      if 1 ≤ m && m ≤ 12 && 1 ≤ d && d ≤ 31 then
        match rest with
        | [] => some ⟨natOfDigits [y1, y2, y3, y4], m, d⟩
        | _ :: timeCs =>
          if validTime timeCs then some ⟨natOfDigits [y1, y2, y3, y4], m, d⟩
          else Option.none
      else Option.none
    else Option.none
  | _ => Option.none

/-- Per-character substitution of Z by +00:00: the embedding of the
source expression s.replace("Z", "+00:00"), whose pattern is the single
character Z, so the Python replace-all behaves exactly per character. -/
def replaceZChars : List Char → List Char
  | [] => []
  | c :: cs =>
    (if c = 'Z' then ['+', '0', '0', ':', '0', '0'] else [c]) ++ replaceZChars cs

/-- String form of the Z normalization performed by process_orders. -/
def pyReplaceZ (s : String) : String :=
  String.mk (replaceZChars s.data)

/-- A database table keyed by its primary/conflict key: a partial map
from key to row. Row order inside the relational table is not
observable through the source, so the map is the table state. -/
abbrev Table (κ ρ : Type) := κ → Option ρ

/-- The empty table. -/
def emptyTable {κ ρ : Type} : Table κ ρ := fun _ => Option.none

/-- Write one row at a key, inserting it or overwriting the row already
there (the effect of one INSERT ... ON CONFLICT ... DO UPDATE). -/
def upsertRow {κ ρ : Type} [DecidableEq κ] (t : Table κ ρ) (k : κ) (r : ρ) : Table κ ρ :=
  fun k2 => if k2 = k then some r else t k2

/-- Write a batch of rows in order with upsert semantics (executemany of
an upsert statement). -/
def upsertFold {κ ρ : Type} [DecidableEq κ] : Table κ ρ → List (κ × ρ) → Table κ ρ
  | t, [] => t
  | t, x :: xs => upsertFold (upsertRow t x.1 x.2) xs

/-- Write one row only if its key is absent (the effect of one
INSERT ... ON CONFLICT ... DO NOTHING). -/
def insertIgnoreRow {κ ρ : Type} [DecidableEq κ] (t : Table κ ρ) (k : κ) (r : ρ) : Table κ ρ :=
  if (t k).isSome then t else upsertRow t k r

/-- Write a batch of rows in order with insert-or-ignore semantics
(execute_batch of an ON CONFLICT DO NOTHING statement). -/
def insertIgnoreFold {κ ρ : Type} [DecidableEq κ] : Table κ ρ → List (κ × ρ) → Table κ ρ
  | t, [] => t
  | t, x :: xs => insertIgnoreFold (insertIgnoreRow t x.1 x.2) xs

/-- Write a batch of rows in order with plain INSERT semantics: a key
already present (in the table or earlier in the batch) violates the
primary key and aborts the whole statement (None result). -/
def insertStrictFold {κ ρ : Type} [DecidableEq κ] : Table κ ρ → List (κ × ρ) → Option (Table κ ρ)
  | t, [] => some t
  | t, x :: xs =>
    if (t x.1).isSome then Option.none
    else insertStrictFold (upsertRow t x.1 x.2) xs

/-- The value attached to a key by the last pair of the list carrying
that key, if any. -/
def lastAssoc {κ ρ : Type} [DecidableEq κ] : List (κ × ρ) → κ → Option ρ
  | [], _ => Option.none
  | x :: xs, k =>
    match lastAssoc xs k with
    | some v => some v
    | Option.none => if x.1 = k then some x.2 else Option.none

/-- The value attached to a key by the first pair of the list carrying
that key, if any. -/
def firstAssoc {κ ρ : Type} [DecidableEq κ] : List (κ × ρ) → κ → Option ρ
  | [], _ => Option.none
  | x :: xs, k => if x.1 = k then some x.2 else firstAssoc xs k

theorem upsertFold_apply {κ ρ : Type} [DecidableEq κ] (xs : List (κ × ρ)) (t : Table κ ρ) (k : κ) :
    upsertFold t xs k =
      match lastAssoc xs k with
      | some v => some v
      | Option.none => t k := by
  induction xs generalizing t with
  | nil => rfl
  | cons x xs ih =>
    show upsertFold (upsertRow t x.1 x.2) xs k = _
    rw [ih]
    cases h : lastAssoc xs k with
    | some v => simp [lastAssoc, h]
    | none =>
      by_cases hk : x.1 = k
      · simp [lastAssoc, h, hk, upsertRow]
      · have hk2 : ¬(k = x.1) := fun h2 => hk h2.symm
        simp [lastAssoc, h, hk, hk2, upsertRow]

theorem upsertFold_idem {κ ρ : Type} [DecidableEq κ] (t : Table κ ρ) (xs : List (κ × ρ)) :
    upsertFold (upsertFold t xs) xs = upsertFold t xs := by
  funext k
  rw [upsertFold_apply, upsertFold_apply]
  cases h : lastAssoc xs k <;> simp

theorem insertIgnoreFold_apply {κ ρ : Type} [DecidableEq κ] (xs : List (κ × ρ)) (t : Table κ ρ) (k : κ) :
    insertIgnoreFold t xs k =
      match t k with
      | some v => some v
      | Option.none => firstAssoc xs k := by
  induction xs generalizing t with
  | nil => cases h : t k <;> simp [insertIgnoreFold, h, firstAssoc]
  | cons x xs ih =>
    show insertIgnoreFold (insertIgnoreRow t x.1 x.2) xs k = _
    rw [ih]
    by_cases hp : (t x.1).isSome
    · have ht : insertIgnoreRow t x.1 x.2 = t := by simp [insertIgnoreRow, hp]
      rw [ht]
      cases h : t k with
      | some v => simp
      | none =>
        by_cases hk : x.1 = k
        · rw [hk] at hp
          rw [h] at hp
          simp at hp
        · simp [firstAssoc, hk]
    · have ht : insertIgnoreRow t x.1 x.2 = upsertRow t x.1 x.2 := by
        simp [insertIgnoreRow, hp]
      rw [ht]
      have h0 : t x.1 = Option.none := by
        cases h : t x.1
        · rfl
        · rw [h] at hp; simp at hp
      by_cases hk : k = x.1
      · rw [hk]
        simp [upsertRow, h0, firstAssoc]
      · have hk2 : ¬(x.1 = k) := fun h2 => hk h2.symm
        simp [upsertRow, hk, firstAssoc, hk2]

theorem insertIgnoreFold_idem {κ ρ : Type} [DecidableEq κ] (t : Table κ ρ) (xs : List (κ × ρ)) :
    insertIgnoreFold (insertIgnoreFold t xs) xs = insertIgnoreFold t xs := by
  funext k
  rw [insertIgnoreFold_apply, insertIgnoreFold_apply]
  cases h1 : t k with
  | some v => simp
  | none => cases h2 : firstAssoc xs k <;> simp

theorem insertStrictFold_mono {κ ρ : Type} [DecidableEq κ] (xs : List (κ × ρ)) :
    ∀ t t2 : Table κ ρ, insertStrictFold t xs = some t2 →
      ∀ k, (t k).isSome → (t2 k).isSome := by
  induction xs with
  | nil =>
    intro t t2 h k hk
    simp [insertStrictFold] at h
    rw [← h]
    exact hk
  | cons x xs ih =>
    intro t t2 h k hk
    simp only [insertStrictFold] at h
    by_cases hp : (t x.1).isSome
    · simp [hp] at h
    · simp only [hp, if_neg] at h
      simp at h
      refine ih _ _ h k ?_
      simp only [upsertRow]
      by_cases hk2 : k = x.1
      · simp [hk2]
      · simpa [hk2] using hk

theorem insertStrictFold_present {κ ρ : Type} [DecidableEq κ] (xs : List (κ × ρ)) :
    ∀ t t2 : Table κ ρ, insertStrictFold t xs = some t2 →
      ∀ x ∈ xs, (t2 x.1).isSome := by
  induction xs with
  | nil =>
    intro t t2 _ x hx
    simp at hx
  | cons y xs ih =>
    intro t t2 h x hx
    simp only [insertStrictFold] at h
    by_cases hp : (t y.1).isSome
    · simp [hp] at h
    · simp only [hp, if_neg] at h
      simp at h
      rcases List.mem_cons.mp hx with hx1 | hx2
      · subst hx1
        refine insertStrictFold_mono xs _ _ h x.1 ?_
        simp [upsertRow]
      · exact ih _ _ h x hx2

/-- Environment page size of the products and boletos clients, from the
default value "1000" of os.getenv with int() applied as in
fetch_boletos_from_api. -/
def PAGE_SIZE : Nat := 1000

/-- One product row of the produtos table (src/sync_products.py): name,
price and category; the key codigo_produto is held separately as the
table key. -/
structure ProductRow where
  nome : PyVal
  preco : FixedDec
  categoria : PyVal
deriving DecidableEq

/-- Membership predicate of codigo_produto over the produtos table, the
embedding of get_existing_product_codes (src/sync_products.py). -/
def get_existing_product_codes {ρ : Type} (db : Table String ρ) : String → Bool :=
  fun k => (db k).isSome

/-- Transformation of one product record (the loop body of
transform_product_data, src/sync_products.py): the str of the ID field,
the Nome field, the Decimal of the str of the PrecoVenda field, and the
Categoria field defaulting to Sem Categoria, evaluated in that order; a
missing key raises KeyError and a non-decimal price string raises
decimal.InvalidOperation. -/
def transform_product_item (item : RawItem) : Except PyErr (String × ProductRow) :=
  match pyGetOpt item "ID" with
  | Option.none => Except.error PyErr.keyError
  | some idv =>
  match pyGetOpt item "Nome" with
  | Option.none => Except.error PyErr.keyError
  | some nome =>
  match pyGetOpt item "PrecoVenda" with
  | Option.none => Except.error PyErr.keyError
  | some pv =>
  match parseDec (pyStr pv) with
  | some preco =>
    Except.ok (pyStr idv, ⟨nome, preco, pyGet item "Categoria" (PyVal.vStr "Sem Categoria")⟩)
  | Option.none => Except.error PyErr.invalidOperation

/-- The per-item loop of transform_product_data: KeyError and ValueError
skip the item, any other exception propagates out of the transformer. -/
def transform_products_loop : List RawItem → Except PyErr (List (String × ProductRow))
  | [] => Except.ok []
  | item :: rest =>
    match transform_product_item item with
    | Except.ok r =>
      match transform_products_loop rest with
      | Except.ok rs => Except.ok (r :: rs)
      | Except.error e => Except.error e
    | Except.error e =>
      if caughtByRecordHandler e then transform_products_loop rest
      else Except.error e

/-- transform_product_data (src/sync_products.py): a payload without a
truthy data list yields the empty batch; otherwise the per-item loop
runs over the data list. -/
def transform_product_data (api_data : Option (List RawItem)) :
    Except PyErr (List (String × ProductRow)) :=
  match api_data with
  | Option.none => Except.ok []
  | some items => transform_products_loop items

/-- insert_new_products (src/sync_products.py): a plain batched INSERT
of the new products, returning the table and len(new_products) on
success, or None when the INSERT hits a duplicate key. -/
def insert_new_products (db : Table String ProductRow)
    (new_products : List (String × ProductRow)) : Option (Table String ProductRow × Nat) :=
  match insertStrictFold db new_products with
  | some db2 => some (db2, new_products.length)
  | Option.none => Option.none

/-- The body of the sync_products endpoint (src/sync_products.py) for a
fixed fetched payload: read existing codes, transform, pre-filter the
codes already present, insert the rest; the result carries the written
table, the inserted count and total_available = len(all_products). -/
def sync_products (api_data : Option (List RawItem)) (db : Table String ProductRow) :
    Except PyErr (Table String ProductRow × Nat × Nat) :=
  match transform_product_data api_data with
  | Except.error e => Except.error e
  | Except.ok all_products =>
    let new_products := all_products.filter (fun p => !(get_existing_product_codes db p.1))
    match insert_new_products db new_products with
    | some r => Except.ok (r.1, r.2, all_products.length)
    | Option.none => Except.error PyErr.uniqueViolation

/-- One row of the pedidos table as written by sync_all_orders
(src/sync_orders.py): valor_final as str(...), data_pedido, vendedor
and id_cliente; the key codigo_pedido (the ID field) is held
separately. -/
structure OrderRow where
  valor_final : String
  data_pedido : CalDate
  vendedor : PyVal
  id_cliente : Int
deriving DecidableEq

/-- fetch_clients_map (src/sync_orders.py): the dict comprehension
over SELECT email, id — each email is lower-cased (only: no strip and
no null filter; a null email raises AttributeError on .lower()), later
rows overwriting earlier ones on key collision. -/
def fetch_clients_map (rows : List (Option String × Int)) : Except PyErr (Table String Int) :=
  if rows.all (fun r => r.1.isSome) then
    Except.ok (rows.foldl (fun m r =>
      match r.1 with
      | some e => upsertRow m (pyLower e) r.2
      | Option.none => m) emptyTable)
  else Except.error PyErr.attributeError

/-- The loop body of process_orders (src/sync_orders.py). The whole body
is wrapped in except Exception: continue, so every per-record failure
(non-string or empty email, unresolved or falsy client id, missing or
unparseable date, missing ID) skips the record; Z markers in the date
are replaced by +00:00 before parsing. -/
def process_order_item (clients_map : Table String Int) (order : RawItem) :
    Option (PyVal × OrderRow) :=
  match pyGet order "ClienteEmail" (PyVal.vStr "") with
  | PyVal.vStr e =>
    let client_email := pyLower e
    if client_email = "" then Option.none
    else
      match clients_map client_email with
      | Option.none => Option.none
      | some cid =>
        if cid = 0 then Option.none
        else
          match pyGetOpt order "Data" with
          | some (PyVal.vStr ds) =>
            (match fromisoformat (pyReplaceZ ds) with
             | some d =>
               match pyGetOpt order "ID" with
               | some oid =>
                 some (oid, ⟨pyStr (pyGet order "ValorFinal" (PyVal.vInt 0)), d,
                   pyGet order "Vendedor" (PyVal.vStr ""), cid⟩)
               | Option.none => Option.none
             | Option.none => Option.none)
          | _ => Option.none
  | _ => Option.none

/-- process_orders (src/sync_orders.py): the per-record loop, never
raising to the engine. -/
def process_orders (orders : List RawItem) (clients_map : Table String Int) :
    List (PyVal × OrderRow) :=
  orders.filterMap (process_order_item clients_map)

/-- The three responses the sync-all-orders endpoint can return on a
committed run: no order found in the API, no valid order to process, or
the success summary with total_encontrados, processados and ignorados. -/
inductive OrdersOutcome where
  | noOrders : OrdersOutcome
  | noValid : OrdersOutcome
  | synced : Nat → Nat → Nat → OrdersOutcome
deriving DecidableEq

/-- The body of the sync_all_orders endpoint (src/sync_orders.py) for a
fixed fetched payload: build the clients map, process the orders and
write them with INSERT ... ON CONFLICT (codigo_pedido) DO NOTHING. -/
def sync_all_orders (cRows : List (Option String × Int)) (orders : List RawItem)
    (pedidos : Table PyVal OrderRow) : Except PyErr (Table PyVal OrderRow × OrdersOutcome) :=
  match fetch_clients_map cRows with
  | Except.error e => Except.error e
  | Except.ok clients_map =>
    if orders.isEmpty then Except.ok (pedidos, OrdersOutcome.noOrders)
    else
      let processed := process_orders orders clients_map
      if processed.isEmpty then Except.ok (pedidos, OrdersOutcome.noValid)
      else
        Except.ok (insertIgnoreFold pedidos processed,
          OrdersOutcome.synced orders.length processed.length
            (orders.length - processed.length))

/-- One row of the boletos table (src/sync_boletos.py), keyed separately
by codigo_boleto. -/
structure BoletoRow where
  numero_documento : PyVal
  valor_boleto : FixedDec
  id_cliente : Option Int
  pago : Bool
  cancelado : Bool
  estornado : Bool
  enviado : Bool
  retorno_recebido : Bool
  descricao : String
  data_emissao : Option CalDate
  data_vencimento : Option CalDate
  multa_apos_vencimento : FixedDec
deriving DecidableEq

/-- fetch_clientes_mapping (src/sync_boletos.py): razão social mapped to
client id, with `if razao` excluding null and empty keys without
raising, and each key normalized by .strip().lower(); later rows
overwrite earlier ones on key collision. -/
def fetch_clientes_mapping (rows : List (Int × Option String)) : Table String Int :=
  rows.foldl (fun m r =>
    match r.2 with
    | some razao => if razao ≠ "" then upsertRow m (pyLower (pyStrip razao)) r.1 else m
    | Option.none => m) emptyTable

/-- The date conversion of one boleto field: the raw value must be
truthy to be parsed, a falsy or absent value yields None; a truthy
non-string raises TypeError in fromisoformat, a string that does not
parse raises ValueError. No Z normalization is performed here. -/
def boleto_data_field (item : RawItem) (k : String) : Except PyErr (Option CalDate) :=
  let v := pyGet item k PyVal.vNone
  if pyTruthy v then
    match v with
    | PyVal.vStr s =>
      match fromisoformat s with
      | some d => Except.ok (some d)
      | Option.none => Except.error PyErr.valueError
    | _ => Except.error PyErr.typeError
  else Except.ok Option.none

/-- The Sacado normalization of transform_boleto_data: the Sacado
field, defaulted and coerced to an empty string when falsy, then
stripped and lower-cased; a truthy non-string raises AttributeError on
the strip call. -/
def boleto_sacado (item : RawItem) : Except PyErr String :=
  let v := pyGet item "Sacado" (PyVal.vStr "")
  let v2 := if pyTruthy v then v else PyVal.vStr ""
  match v2 with
  | PyVal.vStr s => Except.ok (pyLower (pyStrip s))
  | _ => Except.error PyErr.attributeError

/-- A monetary boleto field: Decimal(str(item.get(k, 0))); a string
intermediate that is not a plain decimal raises
decimal.InvalidOperation. -/
def boleto_money_field (item : RawItem) (k : String) : Except PyErr FixedDec :=
  match parseDec (pyStr (pyGet item k (PyVal.vInt 0))) with
  | some d => Except.ok d
  | Option.none => Except.error PyErr.invalidOperation

/-- The Descricao truncation: the Descricao field defaulted to the
empty string, then sliced to its first 255 characters; a present
non-string value (None included) raises TypeError on slicing. -/
def boleto_descricao (item : RawItem) : Except PyErr String :=
  match pyGet item "Descricao" (PyVal.vStr "") with
  | PyVal.vStr s => Except.ok (String.mk (s.data.take 255))
  | _ => Except.error PyErr.typeError

/-- The per-item body of transform_boleto_data (src/sync_boletos.py),
with the fallible fields evaluated in source order: DataEmissao,
DataVencimento, Sacado, then inside the dict literal ValorBoleto,
Descricao and MultaAposVencimento. -/
def transform_boleto_item (clientes_map : Table String Int) (item : RawItem) :
    Except PyErr (String × BoletoRow) :=
  match boleto_data_field item "DataEmissao" with
  | Except.error e => Except.error e
  | Except.ok data_emissao =>
  match boleto_data_field item "DataVencimento" with
  | Except.error e => Except.error e
  | Except.ok data_vencimento =>
  match boleto_sacado item with
  | Except.error e => Except.error e
  | Except.ok sacado =>
  let id_cliente := clientes_map sacado
  match boleto_money_field item "ValorBoleto" with
  | Except.error e => Except.error e
  | Except.ok valor =>
  match boleto_descricao item with
  | Except.error e => Except.error e
  | Except.ok descricao =>
  match boleto_money_field item "MultaAposVencimento" with
  | Except.error e => Except.error e
  | Except.ok multa =>
  Except.ok (pyStr (pyGet item "Id" PyVal.vNone),
    ⟨pyGet item "NumeroDocumento" (PyVal.vStr ""), valor, id_cliente,
     pyTruthy (pyGet item "Pago" (PyVal.vBool false)),
     pyTruthy (pyGet item "Cancelado" (PyVal.vBool false)),
     pyTruthy (pyGet item "Estornado" (PyVal.vBool false)),
     pyTruthy (pyGet item "RemessaEnviada" (PyVal.vBool false)),
     pyTruthy (pyGet item "RetornoRecebido" (PyVal.vBool false)),
     descricao, data_emissao, data_vencimento, multa⟩)

/-- The skip guard of transform_boleto_data (src/sync_boletos.py): a
falsy (empty) item or one without the Id key is skipped with a continue
before the fallible field work starts. -/
def boleto_guard (item : RawItem) : Bool :=
  item.isEmpty || !(pyHas item "Id")

/-- transform_boleto_data continued: the per-item loop itself. -/
def transform_boleto_data (api_data : List RawItem) (clientes_map : Table String Int) :
    Except PyErr (List (String × BoletoRow)) :=
  match api_data with
  | [] => Except.ok []
  | item :: rest =>
    if boleto_guard item then transform_boleto_data rest clientes_map
    else
      match transform_boleto_item clientes_map item with
      | Except.ok r =>
        match transform_boleto_data rest clientes_map with
        | Except.ok rs => Except.ok (r :: rs)
        | Except.error e => Except.error e
      | Except.error e =>
        if caughtByRecordHandler e then transform_boleto_data rest clientes_map
        else Except.error e

/-- upsert_boletos (src/sync_boletos.py): executemany of the
INSERT ... ON CONFLICT (codigo_boleto) DO UPDATE statement, returning
len(batch_data); an empty batch writes nothing and returns 0. -/
def upsert_boletos (db : Table String BoletoRow) (boletos : List (String × BoletoRow)) :
    Table String BoletoRow × Nat :=
  (upsertFold db boletos, boletos.length)

/-- The body of the sync_boletos endpoint (src/sync_boletos.py) for a
fixed fetched payload: build the clientes map, transform, upsert; the
result carries the written table, upserted_count and
total_available = len(transformed_boletos). -/
def sync_boletos (cRows : List (Int × Option String)) (api_data : List RawItem)
    (db : Table String BoletoRow) : Except PyErr (Table String BoletoRow × Nat × Nat) :=
  let clientes_map := fetch_clientes_mapping cRows
  match transform_boleto_data api_data clientes_map with
  | Except.error e => Except.error e
  | Except.ok transformed =>
    let r := upsert_boletos db transformed
    Except.ok (r.1, r.2, transformed.length)

/-- fetch_boletos_from_api (src/sync_boletos.py) against a remote that
honours page and pageSize: the requested slice of the remote list of
unpaid boletos. -/
def fetch_boletos_from_api (remote : List RawItem) (page pageSize : Nat) : List RawItem :=
  (remote.drop ((page - 1) * pageSize)).take pageSize

/-- The sync_boletos endpoint composed with its single fetch call, which
passes no arguments, so the defaults page = 1 and pageSize =
int(PAGE_SIZE) apply. -/
def sync_boletos_endpoint (cRows : List (Int × Option String)) (remote : List RawItem)
    (db : Table String BoletoRow) : Except PyErr (Table String BoletoRow × Nat × Nat) :=
  sync_boletos cRows (fetch_boletos_from_api remote 1 PAGE_SIZE) db

/-- fetch_paginated_orders (src/sync_orders.py) against a remote
described as its successive pages (pages beyond the list are empty):
the loop breaks on an empty page before extending, extends and breaks
on a page shorter than 100, and otherwise advances to the next page;
the second component counts the pages requested. -/
def fetch_paginated_orders {α : Type} : List (List α) → List α × Nat
  | [] => ([], 1)
  | p :: rest =>
    if p.length = 0 then ([], 1)
    else if p.length < 100 then (p, 1)
    else
      let r := fetch_paginated_orders rest
      (p ++ r.1, r.2 + 1)

/-- Concatenation of a list of pages. -/
def pagesConcat {α : Type} : List (List α) → List α
  | [] => []
  | p :: ps => p ++ pagesConcat ps

/-- fetch_products_from_api (src/sync_products.py) against a remote that
honours pageSize: a single GET with params pageSize = PAGE_SIZE and no
page parameter, so the response is the first PAGE_SIZE records and
exactly one request is issued (the second component). -/
def fetch_products_from_api (remote : List RawItem) : List RawItem × Nat :=
  (remote.take PAGE_SIZE, 1)

/-- One row of the pedidos table as written by main.py: cliente,
vendedor, data_envio and uf, keyed separately by codigo_pedido, the ID
field of the order. -/
structure MainOrderRow where
  cliente : PyVal
  vendedor : PyVal
  data_envio : PyVal
  uf : PyVal
deriving DecidableEq

/-- sync_orders_task (src/main.py) for a fixed fetched payload: the list
comprehension evaluates the ID field of every order (KeyError aborts
the run if any order lacks it), keeps the orders whose ID is not among the
existing codes, and inserts them with a plain INSERT (a duplicate ID
inside the batch violates the primary key). The returned string is the
message of the success response. -/
def sync_orders_task (orders : List RawItem) (db : Table PyVal MainOrderRow) :
    Except PyErr (Table PyVal MainOrderRow × String) :=
  if orders.all (fun o => pyHas o "ID") then
    let new_orders := (orders.filter (fun o => (db (pyGet o "ID" PyVal.vNone)).isNone)).map
      (fun o => (pyGet o "ID" PyVal.vNone,
        (⟨pyGet o "Cliente" (PyVal.vStr ""), pyGet o "Vendedor" (PyVal.vStr ""),
          pyGet o "DataEnvio" PyVal.vNone, pyGet o "UF" PyVal.vNone⟩ : MainOrderRow)))
    if new_orders.isEmpty then Except.ok (db, "Nenhum novo pedido encontrado")
    else
      match insertStrictFold db new_orders with
      | some db2 =>
        Except.ok (db2, toString new_orders.length ++ " novos pedidos inseridos")
      | Option.none => Except.error PyErr.uniqueViolation
  else Except.error PyErr.keyError

/-- The durable effect of the /sync-orders endpoint of src/main.py. The
endpoint depends on get_db_connection directly — main.py defines a
get_db_cursor dependency that commits after a successful yield, but no
endpoint of main.py uses it — and sync_orders_task itself never calls
commit, so when the connection closes psycopg2 discards the open
transaction: the committed database state is the initial state whatever
the task wrote. -/
def sync_orders_committed (orders : List RawItem) (db : Table PyVal MainOrderRow) :
    Table PyVal MainOrderRow := db

/-- The get_db_cursor transaction wrapper used by the sync_products,
sync_all_orders and sync_boletos endpoints: the cursor work runs, then
the connection commits on success and rolls the whole run back on any
exception, re-raising it. The committed state is the run result on
success and the unchanged initial state on error. -/
def committedState {κ ρ α : Type} (run : Table κ ρ → Except PyErr (Table κ ρ × α))
    (db : Table κ ρ) : Table κ ρ :=
  match run db with
  | Except.ok p => p.1
  | Except.error _ => db

/-- The count of records a run durably inserted: the reported count on a
committed run, and zero on a failed run, whose writes are rolled back. -/
def committedInserted {κ ρ : Type} (r : Except PyErr (Table κ ρ × Nat × Nat)) : Nat :=
  match r with
  | Except.ok p => p.2.1
  | Except.error _ => 0

/-- clean_phone (src/sync_customers.py): None for a falsy input (null or
empty string), otherwise re.sub removing parentheses, whitespace and
hyphens. -/
def removedChar (c : Char) : Bool :=
  c ∈ ['(', ')', '-', ' ', '\t', '\n', '\r', '\x0b', '\x0c']

/-- clean_phone (src/sync_customers.py). -/
def clean_phone (phone : Option String) : Option String :=
  match phone with
  | Option.none => Option.none
  | some s =>
    if s = "" then Option.none
    else some (String.mk (s.data.filter (fun c => !(removedChar c))))

theorem sync_products_rerun (api_data : Option (List RawItem)) (pdb : Table String ProductRow) :
    committedState (sync_products api_data) (committedState (sync_products api_data) pdb) =
        committedState (sync_products api_data) pdb
      ∧ committedInserted (sync_products api_data (committedState (sync_products api_data) pdb)) = 0 := by
  cases h : transform_product_data api_data with
  | error e =>
    simp [committedState, sync_products, h, committedInserted]
  | ok all_products =>
    cases h3 : insertStrictFold pdb
        (all_products.filter (fun p => !(get_existing_product_codes pdb p.1))) with
    | none =>
      simp [committedState, sync_products, h, insert_new_products, h3, committedInserted]
    | some db1 =>
      have hc1 : committedState (sync_products api_data) pdb = db1 := by
        simp [committedState, sync_products, h, insert_new_products, h3]
      have hall : ∀ p ∈ all_products, (db1 p.1).isSome := by
        intro p hp
        by_cases hex : (pdb p.1).isSome
        · exact insertStrictFold_mono _ _ _ h3 p.1 hex
        · refine insertStrictFold_present _ _ _ h3 p ?_
          refine List.mem_filter.mpr ⟨hp, ?_⟩
          simp [get_existing_product_codes, hex]
      have hnil : all_products.filter (fun p => !(get_existing_product_codes db1 p.1)) = [] := by
        rw [List.filter_eq_nil_iff]
        intro p hp
        simp [get_existing_product_codes, hall p hp]
      have h2 : sync_products api_data db1 = Except.ok (db1, 0, all_products.length) := by
        simp [sync_products, h, hnil, insert_new_products, insertStrictFold]
      rw [hc1]
      constructor
      · simp [committedState, h2]
      · simp [committedInserted, h2]

/-- C1: for every fixed fetched payload and every starting database
state, each of the three synchronization runs is idempotent: running it
twice yields the same committed database state as running it once, the
second products run (insert-only pre-filter policy) inserts zero records
because it skips all the now-existing codes, and the second orders
(ON CONFLICT DO NOTHING) and boletos (upsert) runs create no change of
state, hence zero new records. -/
theorem c1_sync_runs_idempotent (api_data : Option (List RawItem)) (pdb : Table String ProductRow)
    (cRows : List (Option String × Int)) (orders : List RawItem) (odb : Table PyVal OrderRow)
    (bRows : List (Int × Option String)) (bItems : List RawItem) (bdb : Table String BoletoRow) :
    (committedState (sync_products api_data) (committedState (sync_products api_data) pdb) =
        committedState (sync_products api_data) pdb
      ∧ committedInserted (sync_products api_data (committedState (sync_products api_data) pdb)) = 0)
    ∧ committedState (sync_all_orders cRows orders)
        (committedState (sync_all_orders cRows orders) odb) =
        committedState (sync_all_orders cRows orders) odb
    ∧ committedState (sync_boletos bRows bItems)
        (committedState (sync_boletos bRows bItems) bdb) =
        committedState (sync_boletos bRows bItems) bdb := by
  refine ⟨sync_products_rerun api_data pdb, ?_, ?_⟩
  · cases hm : fetch_clients_map cRows with
    | error e => simp [committedState, sync_all_orders, hm]
    | ok clients_map =>
      by_cases ho : orders.isEmpty
      · simp [committedState, sync_all_orders, hm, ho]
      · by_cases hp : (process_orders orders clients_map).isEmpty
        · simp [committedState, sync_all_orders, hm, ho, hp]
        · simp [committedState, sync_all_orders, hm, ho, hp, insertIgnoreFold_idem]
  · cases ht : transform_boleto_data bItems (fetch_clientes_mapping bRows) with
    | error e => simp [committedState, sync_boletos, ht]
    | ok ts => simp [committedState, sync_boletos, ht, upsert_boletos, upsertFold_idem]

/-- A one-order payload whose single order has ID 1 and no other field:
a run of the /sync-orders endpoint of main.py on an empty pedidos table
fetches it, filters nothing out and inserts it successfully. -/
def c2_order_payload : List RawItem := [[("ID", PyVal.vInt 1)]]

/-- A one-product payload that transforms and inserts cleanly. -/
def c2_product_payload : Option (List RawItem) :=
  some [[("ID", PyVal.vInt 7), ("Nome", PyVal.vStr "P"), ("PrecoVenda", PyVal.vStr "1.5")]]

/-- A payload with a duplicated product code, which makes the plain
batched INSERT of sync_products violate the primary key and fail. -/
def c2_dup_payload : Option (List RawItem) :=
  some [[("ID", PyVal.vInt 7), ("Nome", PyVal.vStr "P"), ("PrecoVenda", PyVal.vStr "1.5")],
        [("ID", PyVal.vInt 7), ("Nome", PyVal.vStr "Q"), ("PrecoVenda", PyVal.vStr "2")]]

/-- C2: the claim that the transaction commits exactly when every batch
write of the run succeeds holds for the endpoints wrapped in
get_db_cursor but is broken by /sync-orders of main.py, which never
commits: at the failing input c2_order_payload the task succeeds, its
batch write succeeds and it reports one inserted order, yet the
committed state is still the initial (empty) table. By contrast, the
sync_products run commits its row on success, and on a failing batch
write the rollback leaves the committed state unchanged. -/
theorem c2_main_sync_orders_never_commits :
    sync_orders_task c2_order_payload emptyTable =
      Except.ok (upsertRow emptyTable (PyVal.vInt 1)
        ⟨PyVal.vStr "", PyVal.vStr "", PyVal.vNone, PyVal.vNone⟩, "1 novos pedidos inseridos")
    ∧ sync_orders_committed c2_order_payload emptyTable = emptyTable
    ∧ committedState (sync_products c2_product_payload) emptyTable "7" =
        some ⟨PyVal.vStr "P", ⟨15, 1⟩, PyVal.vStr "Sem Categoria"⟩
    ∧ sync_products c2_dup_payload emptyTable = Except.error PyErr.uniqueViolation
    ∧ committedState (sync_products c2_dup_payload) emptyTable = emptyTable := by
  refine ⟨rfl, rfl, rfl, rfl, rfl⟩

/-- A boleto record that transforms cleanly: Id only, every other field
defaulted. -/
def c3_good_item : RawItem := [("Id", PyVal.vInt 1)]

/-- A boleto record whose Descricao is null: the defaulted Descricao
lookup returns None because the key is present, and slicing None raises
TypeError, which the handler for KeyError and ValueError does not
catch. -/
def c3_bad_item : RawItem := [("Id", PyVal.vInt 2), ("Descricao", PyVal.vNone)]

set_option maxRecDepth 16384 in
/-- Claim C3 counterexample: a batch holding one clean record and one
record with a null Descricao makes transform_boleto_data raise TypeError
to the engine, losing the clean record too, although the clean record
alone transforms fine — so a field-level type error does not merely
skip its own record, contradicting the claim. -/
theorem c3_typeerror_aborts_batch :
    transform_boleto_data [c3_good_item, c3_bad_item] emptyTable =
      Except.error PyErr.typeError
    ∧ transform_boleto_data [c3_good_item] emptyTable =
        Except.ok [("1", ⟨PyVal.vStr "", ⟨0, 0⟩, Option.none, false, false, false, false, false,
          "", Option.none, Option.none, ⟨0, 0⟩⟩)] :=
  ⟨rfl, rfl⟩

/-- True when the per-item body either succeeds or fails with one of the
exception classes the per-record handler catches. -/
def boleto_item_ok_or_caught (clientes_map : Table String Int) (item : RawItem) : Bool :=
  match transform_boleto_item clientes_map item with
  | Except.ok _ => true
  | Except.error e => caughtByRecordHandler e

/-- C3 as amended: a field-level KeyError or ValueError (a missing
mandatory field, a malformed date string) during the transformation of
one boleto record skips only that record; whenever every record of the
batch either transforms or fails with one of those two caught classes,
the transformer never raises to the engine and returns exactly the
transforms of the non-skipped records. (Exceptions outside that pair,
such as the TypeError of the counterexample, abort the whole batch.) -/
theorem c3_caught_errors_isolate (api_data : List RawItem) (clientes_map : Table String Int)
    (h : ∀ item ∈ api_data, boleto_item_ok_or_caught clientes_map item = true) :
    transform_boleto_data api_data clientes_map =
      Except.ok (api_data.filterMap (fun item =>
        if boleto_guard item then Option.none
        else (transform_boleto_item clientes_map item).toOption)) := by
  induction api_data with
  | nil => rfl
  | cons item rest ih =>
    have hhead := h item (List.mem_cons_self _ _)
    have htail : ∀ i ∈ rest, boleto_item_ok_or_caught clientes_map i = true :=
      fun i hi => h i (List.mem_cons_of_mem _ hi)
    by_cases hg : boleto_guard item = true
    · simp [transform_boleto_data, hg, ih htail, List.filterMap_cons]
    · cases hb : transform_boleto_item clientes_map item with
      | ok r =>
        simp [transform_boleto_data, hg, hb, ih htail, List.filterMap_cons, Except.toOption]
      | error e =>
        have hc : caughtByRecordHandler e = true := by
          simpa [boleto_item_ok_or_caught, hb] using hhead
        simp [transform_boleto_data, hg, hb, hc, ih htail, List.filterMap_cons, Except.toOption]

/-- The ten-record batch of the claim: record number four carries a
malformed (non-ISO) date string and every other record is clean. -/
def c3_batch : List RawItem :=
  [[("Id", PyVal.vInt 1)], [("Id", PyVal.vInt 2)], [("Id", PyVal.vInt 3)],
   [("Id", PyVal.vInt 4), ("DataEmissao", PyVal.vStr "31/05/2024")],
   [("Id", PyVal.vInt 5)], [("Id", PyVal.vInt 6)], [("Id", PyVal.vInt 7)],
   [("Id", PyVal.vInt 8)], [("Id", PyVal.vInt 9)], [("Id", PyVal.vInt 10)]]

/-- Claim C3 witness: on the ten-record batch whose fourth record has a
malformed date (a ValueError, which is caught), the transformer returns
normally with exactly nine transformed records and one skip. -/
theorem c3_caught_errors_isolate_witness :
    (∀ item ∈ c3_batch, boleto_item_ok_or_caught emptyTable item = true)
    ∧ transform_boleto_data c3_batch emptyTable =
        Except.ok (c3_batch.filterMap (fun item =>
          if boleto_guard item then Option.none
          else (transform_boleto_item emptyTable item).toOption))
    ∧ (c3_batch.filterMap (fun item =>
          if boleto_guard item then Option.none
          else (transform_boleto_item emptyTable item).toOption)).length = 9 :=
  ⟨by decide, c3_caught_errors_isolate c3_batch emptyTable (by decide), by decide⟩

/-- The raw order of the claim: ClienteEmail "JANE@X.COM " with a
trailing space, a valid date and an ID. -/
def c4_jane_order : RawItem :=
  [("ClienteEmail", PyVal.vStr "JANE@X.COM "), ("Data", PyVal.vStr "2024-05-01"),
   ("ID", PyVal.vInt 9)]

/-- The clients map the orders resolver builds from the single database
row email = "jane@x.com", id = 5. -/
def c4_clients_map : Table String Int :=
  match fetch_clients_map [(some "jane@x.com", 5)] with
  | Except.ok m => m
  | Except.error _ => emptyTable

set_option maxRecDepth 16384 in
/-- Claim C4 counterexample: the orders-side resolver lower-cases but
does not trim, so against the reference map containing jane@x.com bound
to 5 the raw order with ClienteEmail "JANE@X.COM " (trailing space) is
skipped by process_orders instead of resolving to customer id 5 as the
claim requires. -/
theorem c4_orders_lookup_not_trimmed :
    fetch_clients_map [(some "jane@x.com", 5)] = Except.ok c4_clients_map
    ∧ c4_clients_map "jane@x.com" = some 5
    ∧ process_orders [c4_jane_order] c4_clients_map = [] :=
  ⟨rfl, rfl, rfl⟩

/-- C4 as amended: the boletos-side resolver has the claimed behaviour —
the map excludes null and empty razão social entries without raising and
normalizes keys by strip + lower, and the Sacado lookup normalizes the
same way, so any two spellings equal up to surrounding whitespace and
case resolve; the orders-side resolver instead lower-cases only (no
trimming, no null/empty exclusion), so the ClienteEmail "JANE@X.COM "
of the claim does not resolve against the map built from jane@x.com and
the record is skipped. -/
theorem c4_normalization_amended :
    (∀ (i : Int) (rows : List (Int × Option String)),
      fetch_clientes_mapping ((i, Option.none) :: rows) = fetch_clientes_mapping rows
      ∧ fetch_clientes_mapping ((i, some "") :: rows) = fetch_clientes_mapping rows)
    ∧ (∀ (i : Int) (e s : String), e ≠ "" → pyLower (pyStrip s) = pyLower (pyStrip e) →
        (transform_boleto_item (fetch_clientes_mapping [(i, some e)])
            [("Id", PyVal.vInt 1), ("Sacado", PyVal.vStr s)]).map
          (fun r => r.2.id_cliente) = Except.ok (some i))
    ∧ process_orders [c4_jane_order] c4_clients_map = [] := by
  refine ⟨?_, ?_, rfl⟩
  · intro i rows
    constructor
    · rfl
    · simp [fetch_clientes_mapping]
  · intro i e s he hst
    have hm : fetch_clientes_mapping [(i, some e)] =
        upsertRow emptyTable (pyLower (pyStrip e)) i := by
      simp [fetch_clientes_mapping, he]
    have hsac : boleto_sacado [("Id", PyVal.vInt 1), ("Sacado", PyVal.vStr s)] =
        Except.ok (pyLower (pyStrip s)) := by
      by_cases hs : s = ""
      · subst hs; rfl
      · simp [boleto_sacado, pyGet, pyGetOpt, pyTruthy, hs]
    have hde : boleto_data_field [("Id", PyVal.vInt 1), ("Sacado", PyVal.vStr s)]
        "DataEmissao" = Except.ok Option.none := rfl
    have hdv : boleto_data_field [("Id", PyVal.vInt 1), ("Sacado", PyVal.vStr s)]
        "DataVencimento" = Except.ok Option.none := rfl
    have hval : boleto_money_field [("Id", PyVal.vInt 1), ("Sacado", PyVal.vStr s)]
        "ValorBoleto" = Except.ok ⟨0, 0⟩ := rfl
    have hmulta : boleto_money_field [("Id", PyVal.vInt 1), ("Sacado", PyVal.vStr s)]
        "MultaAposVencimento" = Except.ok ⟨0, 0⟩ := rfl
    have hdesc : boleto_descricao [("Id", PyVal.vInt 1), ("Sacado", PyVal.vStr s)] =
        Except.ok "" := rfl
    simp only [transform_boleto_item, hde, hdv, hsac, hval, hmulta, hdesc, hm]
    simp [Except.map, upsertRow, hst]

/-- Claim C4 witness: the boletos-side resolution at the concrete inputs
of the claim — razão social "jane@x.com" with id 5 in the map, Sacado
"JANE@X.COM " in the raw record — yields customer id 5, and a null
natural key is excluded from the map without raising. -/
theorem c4_normalization_amended_witness :
    fetch_clientes_mapping [((5 : Int), Option.none)] = fetch_clientes_mapping []
    ∧ ("jane@x.com" ≠ "" ∧ pyLower (pyStrip "JANE@X.COM ") = pyLower (pyStrip "jane@x.com"))
    ∧ (transform_boleto_item (fetch_clientes_mapping [((5 : Int), some "jane@x.com")])
        [("Id", PyVal.vInt 1), ("Sacado", PyVal.vStr "JANE@X.COM ")]).map
        (fun r => r.2.id_cliente) = Except.ok (some 5) :=
  ⟨(c4_normalization_amended.1 5 []).1, ⟨by decide, by decide⟩,
   c4_normalization_amended.2.1 5 "jane@x.com" "JANE@X.COM " (by decide) (by decide)⟩

set_option maxRecDepth 16384 in
/-- Claim C5 counterexample: a product record with no PrecoVenda field
is skipped by transform_product_data (the KeyError path), not defaulted
to a zero price as the claim requires — the missing-monetary-defaults-
to-zero part of the claim fails for the products transformer. -/
theorem c5_missing_price_skips_product :
    transform_product_data (some [[("ID", PyVal.vInt 7), ("Nome", PyVal.vStr "X")]]) =
      Except.ok []
    ∧ (Except.ok ([] : List (String × ProductRow)) : Except PyErr (List (String × ProductRow))) ≠
        Except.ok [("7", ⟨PyVal.vStr "X", ⟨0, 0⟩, PyVal.vStr "Sem Categoria"⟩)] :=
  ⟨rfl, by simp⟩

/-- The one-product payload with price string s. -/
def c5_item (s : String) : RawItem :=
  [("ID", PyVal.vInt 1), ("Nome", PyVal.vStr "N"), ("PrecoVenda", PyVal.vStr s)]

/-- Ten boleto records each carrying the monetary string "0.10". -/
def c5_ten_tenths : List RawItem :=
  List.replicate 10 [("Id", PyVal.vInt 1), ("ValorBoleto", PyVal.vStr "0.10")]

set_option maxRecDepth 65536 in
/-- C5 as amended: every monetary input given as a decimal string is
parsed through the string intermediate into the exact fixed-point
decimal (the transformed product price is exactly the parsed decimal of
the input string, never an approximation), the values of ten transformed
"0.10" boletos sum to exactly 1, and a missing monetary field defaults
to zero for the boleto transformer; a product with a missing PrecoVenda,
however, is skipped rather than defaulted (KeyError), as the
counterexample shows. -/
theorem c5_money_exact_amended :
    (∀ (s : String) (d : FixedDec), parseDec s = some d →
      transform_product_data (some [c5_item s]) =
        Except.ok [("1", ⟨PyVal.vStr "N", d, PyVal.vStr "Sem Categoria"⟩)])
    ∧ (∀ rs, transform_boleto_data c5_ten_tenths emptyTable = Except.ok rs →
        ((rs.map (fun r => r.2.valor_boleto)).foldl FixedDec.add ⟨0, 0⟩).val = 1)
    ∧ (∀ clientes_map : Table String Int,
        transform_boleto_item clientes_map [("Id", PyVal.vInt 1)] =
          Except.ok ("1", ⟨PyVal.vStr "", ⟨0, 0⟩, clientes_map "", false, false, false, false,
            false, "", Option.none, Option.none, ⟨0, 0⟩⟩)) := by
  refine ⟨?_, ?_, fun clientes_map => rfl⟩
  · intro s d h
    have h1 : pyGetOpt (c5_item s) "ID" = some (PyVal.vInt 1) := rfl
    have h2 : pyGetOpt (c5_item s) "Nome" = some (PyVal.vStr "N") := rfl
    have h3 : pyGetOpt (c5_item s) "PrecoVenda" = some (PyVal.vStr s) := rfl
    have h4 : pyGet (c5_item s) "Categoria" (PyVal.vStr "Sem Categoria") =
        PyVal.vStr "Sem Categoria" := rfl
    simp only [transform_product_data, transform_products_loop, transform_product_item,
      h1, h2, h3, h4, pyStr, h]
    rfl
  · intro rs h
    have ht : transform_boleto_data c5_ten_tenths emptyTable =
        Except.ok (List.replicate 10 (("1", ⟨PyVal.vStr "", ⟨10, 2⟩, Option.none, false, false,
          false, false, false, "", Option.none, Option.none, ⟨0, 0⟩⟩) : String × BoletoRow)) := rfl
    rw [ht] at h
    injection h with h5
    rw [← h5]
    have hmap : ((List.replicate 10 (("1", ⟨PyVal.vStr "", ⟨10, 2⟩, Option.none, false, false,
        false, false, false, "", Option.none, Option.none, ⟨0, 0⟩⟩) : String × BoletoRow)).map
          (fun r => r.2.valor_boleto)).foldl FixedDec.add ⟨0, 0⟩ = ⟨100, 2⟩ := by decide
    rw [hmap]
    norm_num [FixedDec.val]

set_option maxRecDepth 65536 in
/-- Claim C5 witness: the decimal string "19.90" of the claim parses to
the fixed-point decimal 1990 with scale 2, the transformed product price
is exactly that decimal whose value is exactly 199/10, and the ten
transformed "0.10" boletos sum to exactly 1. -/
theorem c5_money_exact_amended_witness :
    parseDec "19.90" = some ⟨1990, 2⟩
    ∧ transform_product_data (some [c5_item "19.90"]) =
        Except.ok [("1", ⟨PyVal.vStr "N", ⟨1990, 2⟩, PyVal.vStr "Sem Categoria"⟩)]
    ∧ (((List.replicate 10 (("1", ⟨PyVal.vStr "", ⟨10, 2⟩, Option.none, false, false,
          false, false, false, "", Option.none, Option.none, ⟨0, 0⟩⟩) : String × BoletoRow)).map
          (fun r => r.2.valor_boleto)).foldl FixedDec.add ⟨0, 0⟩).val = 1
    ∧ FixedDec.val ⟨1990, 2⟩ = 199 / 10 :=
  ⟨by decide, c5_money_exact_amended.1 "19.90" ⟨1990, 2⟩ (by decide),
   c5_money_exact_amended.2.1 _ rfl, by norm_num [FixedDec.val]⟩

theorem replaceZChars_append (a b : List Char) :
    replaceZChars (a ++ b) = replaceZChars a ++ replaceZChars b := by
  induction a with
  | nil => rfl
  | cons c cs ih => simp [replaceZChars, ih]

theorem replaceZChars_of_not_mem (a : List Char) (h : ¬ 'Z' ∈ a) : replaceZChars a = a := by
  induction a with
  | nil => rfl
  | cons c cs ih =>
    have hc : c ≠ 'Z' := fun he => h (he ▸ List.mem_cons_self c cs)
    have hcs : ¬ 'Z' ∈ cs := fun hm => h (List.mem_cons_of_mem c hm)
    simp [replaceZChars, hc, ih hcs]

theorem pyReplaceZ_append_z (b : String) (h : ¬ 'Z' ∈ b.data) :
    pyReplaceZ (b ++ "Z") = b ++ "+00:00" := by
  cases b with
  | mk cs =>
    have h2 : ¬ 'Z' ∈ cs := h
    show String.mk (replaceZChars (String.mk cs ++ "Z").data) = String.mk cs ++ "+00:00"
    have hd : (String.mk cs ++ "Z").data = cs ++ ['Z'] := rfl
    have hd2 : String.mk cs ++ "+00:00" = String.mk (cs ++ ['+', '0', '0', ':', '0', '0']) := rfl
    rw [hd, hd2, replaceZChars_append, replaceZChars_of_not_mem cs h2]
    rfl

set_option maxRecDepth 16384 in
/-- Claim C6 counterexample: the boletos transformer performs no Z
normalization, so a DataEmissao carrying the trailing-Z form of the
claim is skipped (the parse raises ValueError, which the record handler
catches) while the equivalent +00:00 form parses to the calendar date —
the two forms do not yield the same date through
transform_boleto_data. -/
theorem c6_boletos_z_date_skipped :
    transform_boleto_data
        [[("Id", PyVal.vInt 1), ("DataEmissao", PyVal.vStr "2024-05-01T10:00:00Z")]]
        emptyTable = Except.ok []
    ∧ transform_boleto_data
        [[("Id", PyVal.vInt 1), ("DataEmissao", PyVal.vStr "2024-05-01T10:00:00+00:00")]]
        emptyTable =
        Except.ok [("1", ⟨PyVal.vStr "", ⟨0, 0⟩, Option.none, false, false, false, false, false,
          "", some ⟨2024, 5, 1⟩, Option.none, ⟨0, 0⟩⟩)] :=
  ⟨rfl, rfl⟩

/-- A clients map binding a@b.c to id 3, for the order-requires-a-date
conjunct. -/
def c6_map : Table String Int := upsertRow emptyTable "a@b.c" 3

set_option maxRecDepth 16384 in
/-- C6 as amended: the orders transformer replaces Z by +00:00 before
parsing, so every date string made of a Z-free prefix plus a trailing Z
parses exactly as the +00:00-suffixed prefix does; the boletos
transformer passes the raw string to the parser with no normalization,
so a non-empty unparseable DataEmissao (a trailing-Z string included,
under the parser contract the spec states) is skipped as a bad date
rather than parsed; an absent boleto date field becomes null rather
than an error, and an order without a date is skipped since the order
entity requires a date. -/
theorem c6_date_normalization_amended :
    (∀ b : String, ¬ 'Z' ∈ b.data →
      fromisoformat (pyReplaceZ (b ++ "Z")) = fromisoformat (b ++ "+00:00"))
    ∧ (∀ s : String, s ≠ "" → fromisoformat s = Option.none →
        transform_boleto_data [[("Id", PyVal.vInt 1), ("DataEmissao", PyVal.vStr s)]]
          emptyTable = Except.ok [])
    ∧ (∀ clientes_map : Table String Int,
        (transform_boleto_item clientes_map [("Id", PyVal.vInt 1)]).map
          (fun r => r.2.data_emissao) = Except.ok Option.none)
    ∧ process_orders [[("ClienteEmail", PyVal.vStr "a@b.c"), ("ID", PyVal.vInt 1)]] c6_map =
        [] := by
  refine ⟨?_, ?_, fun clientes_map => rfl, rfl⟩
  · intro b h
    rw [pyReplaceZ_append_z b h]
  · intro s hs hp
    have hb : boleto_data_field [("Id", PyVal.vInt 1), ("DataEmissao", PyVal.vStr s)]
        "DataEmissao" = Except.error PyErr.valueError := by
      simp [boleto_data_field, pyGet, pyGetOpt, pyTruthy, hs, hp]
    have hitem : transform_boleto_item emptyTable
        [("Id", PyVal.vInt 1), ("DataEmissao", PyVal.vStr s)] =
        Except.error PyErr.valueError := by
      simp only [transform_boleto_item, hb]
    have hg : boleto_guard [("Id", PyVal.vInt 1), ("DataEmissao", PyVal.vStr s)] = false := rfl
    simp [transform_boleto_data, hg, hitem, caughtByRecordHandler]

/-- Claim C6 witness: at the concrete date of the claim, the orders-side
replacement makes "2024-05-01T10:00:00Z" parse exactly as
"2024-05-01T10:00:00+00:00", and the boletos transformer skips the
record carrying the Z form. -/
theorem c6_date_normalization_amended_witness :
    (¬ 'Z' ∈ ("2024-05-01T10:00:00" : String).data
      ∧ fromisoformat (pyReplaceZ ("2024-05-01T10:00:00" ++ "Z")) =
          fromisoformat ("2024-05-01T10:00:00" ++ "+00:00"))
    ∧ ("2024-05-01T10:00:00Z" ≠ "" ∧ fromisoformat "2024-05-01T10:00:00Z" = Option.none
      ∧ transform_boleto_data [[("Id", PyVal.vInt 1),
          ("DataEmissao", PyVal.vStr "2024-05-01T10:00:00Z")]] emptyTable = Except.ok []) :=
  ⟨⟨by decide, c6_date_normalization_amended.1 "2024-05-01T10:00:00" (by decide)⟩,
   ⟨by decide, by decide,
    c6_date_normalization_amended.2.1 "2024-05-01T10:00:00Z" (by decide) (by decide)⟩⟩

/-- Claim C7 counterexample: the products client is not paginated — it
issues exactly one request with pageSize = PAGE_SIZE and no page
parameter, so against a remote with 1100 products it fetches only the
first 1000 and never advances to a second page, instead of accumulating
all records as the claim requires of paginated entities. -/
theorem c7_products_single_request :
    (fetch_products_from_api (List.replicate 1100 ([] : RawItem))).1.length = 1000
    ∧ (fetch_products_from_api (List.replicate 1100 ([] : RawItem))).2 = 1
    ∧ (1000 : Nat) ≠ 1100 := by
  refine ⟨?_, rfl, by decide⟩
  show (List.take PAGE_SIZE (List.replicate 1100 ([] : RawItem))).length = 1000
  rw [List.length_take, List.length_replicate]
  decide

/-- C7 as amended: the orders bulk client advances the page number and
stops exactly at the first page that is empty or shorter than 100,
accumulating every record of the pages it fetched — in particular pages
of sizes 100, 100 and 37 cost exactly 3 requests and produce all 237
records; the products client, by contrast, performs a single request
with pageSize = PAGE_SIZE and no page advancement. -/
theorem c7_pagination_amended :
    (∀ (α : Type) (ps : List (List α)) (q : List α),
      (∀ p ∈ ps, p.length = 100) → q.length < 100 →
      fetch_paginated_orders (ps ++ [q]) = (pagesConcat (ps ++ [q]), ps.length + 1))
    ∧ (∀ remote : List RawItem, fetch_products_from_api remote = (remote.take PAGE_SIZE, 1)) := by
  refine ⟨?_, fun remote => rfl⟩
  intro α ps q hps hq
  induction ps with
  | nil =>
    by_cases h0 : q.length = 0
    · have hqe : q = [] := List.length_eq_zero.mp h0
      subst hqe
      simp [fetch_paginated_orders, pagesConcat]
    · simp [fetch_paginated_orders, h0, hq, pagesConcat]
  | cons p ps ih =>
    have hp100 : p.length = 100 := hps p (List.mem_cons_self _ _)
    have htail : ∀ r ∈ ps, r.length = 100 := fun r hr => hps r (List.mem_cons_of_mem _ hr)
    have hne : ¬ p.length = 0 := by rw [hp100]; decide
    have hlt : ¬ p.length < 100 := by rw [hp100]; decide
    rw [List.cons_append]
    show (if p.length = 0 then (([] : List α), 1)
        else if p.length < 100 then (p, 1)
        else (p ++ (fetch_paginated_orders (ps ++ [q])).1,
          (fetch_paginated_orders (ps ++ [q])).2 + 1)) =
      (pagesConcat (p :: (ps ++ [q])), (p :: ps).length + 1)
    rw [if_neg hne, if_neg hlt, ih htail]
    simp [pagesConcat]

/-- The three pages of the claim: two full pages of 100 records and a
last page of 37. -/
def c7_pages : List (List Nat) := [List.replicate 100 0, List.replicate 100 1]

/-- The short last page of the claim. -/
def c7_last : List Nat := List.replicate 37 2

set_option maxRecDepth 65536 in
/-- Claim C7 witness: on pages of sizes 100, 100 and 37 the orders bulk
client requests exactly 3 pages and accumulates all 237 records. -/
theorem c7_pagination_amended_witness :
    (∀ p ∈ c7_pages, p.length = 100) ∧ c7_last.length < 100
    ∧ fetch_paginated_orders (c7_pages ++ [c7_last]) =
        (pagesConcat (c7_pages ++ [c7_last]), c7_pages.length + 1)
    ∧ (pagesConcat (c7_pages ++ [c7_last])).length = 237
    ∧ c7_pages.length + 1 = 3 :=
  ⟨by decide, by decide, c7_pagination_amended.1 Nat c7_pages c7_last (by decide) (by decide),
   by decide, by decide⟩

/-- A boletos payload of two received records, the second falsy and
hence skipped by the guard: one record transforms. -/
def c8_batch : List RawItem := [[("Id", PyVal.vInt 1)], []]

set_option maxRecDepth 16384 in
/-- Claim C8 counterexample: on a payload of 2 received records of which
1 is skipped, the sync_boletos summary reports upserted = 1 and
total_available = 1 — total_available is the count of transformed
records, not the count received from the remote source (2), and no
skipped count is reported, contradicting the claim. -/
theorem c8_boletos_total_available_not_received :
    sync_boletos [] c8_batch emptyTable =
      Except.ok (upsertFold emptyTable [("1", ⟨PyVal.vStr "", ⟨0, 0⟩, Option.none, false, false,
        false, false, false, "", Option.none, Option.none, ⟨0, 0⟩⟩)], 1, 1)
    ∧ c8_batch.length = 2
    ∧ (1 : Nat) ≠ 2 :=
  ⟨rfl, rfl, by decide⟩

/-- C8 as amended: the orders summary is accurate in the claimed sense —
on a committed run with a non-empty processed batch it reports
total_encontrados = records received, processados = records transformed
and ignorados = received minus transformed; the boletos summary instead
reports the upserted count together with total_available equal to the
count of transformed records (not the count received), and reports no
skipped field. -/
theorem c8_summary_amended :
    (∀ (cRows : List (Option String × Int)) (orders : List RawItem)
        (pedidos : Table PyVal OrderRow) (clients_map : Table String Int),
      fetch_clients_map cRows = Except.ok clients_map →
      process_orders orders clients_map ≠ [] →
      sync_all_orders cRows orders pedidos =
        Except.ok (insertIgnoreFold pedidos (process_orders orders clients_map),
          OrdersOutcome.synced orders.length (process_orders orders clients_map).length
            (orders.length - (process_orders orders clients_map).length)))
    ∧ (∀ (cRows : List (Int × Option String)) (api_data : List RawItem)
        (db : Table String BoletoRow) (ts : List (String × BoletoRow)),
      transform_boleto_data api_data (fetch_clientes_mapping cRows) = Except.ok ts →
      sync_boletos cRows api_data db = Except.ok (upsertFold db ts, ts.length, ts.length)) := by
  constructor
  · intro cRows orders pedidos clients_map hm hp
    have ho : orders ≠ [] := by
      intro he
      subst he
      exact hp rfl
    have ho2 : orders.isEmpty = false := by
      cases orders with
      | nil => exact absurd rfl ho
      | cons a l => rfl
    have hp2 : (process_orders orders clients_map).isEmpty = false := by
      cases hpp : process_orders orders clients_map with
      | nil => exact absurd hpp hp
      | cons a l => rfl
    simp [sync_all_orders, hm, ho2, hp2]
  · intro cRows api_data db ts h
    simp [sync_boletos, h, upsert_boletos]

/-- The clients rows, raw order and derived map of the orders-side
summary witness. -/
def c8_cRows : List (Option String × Int) := [(some "a@b.c", 3)]

/-- A raw order that processes cleanly against c8_cRows. -/
def c8_order : RawItem :=
  [("ClienteEmail", PyVal.vStr "a@b.c"), ("Data", PyVal.vStr "2024-05-01"),
   ("ID", PyVal.vInt 1)]

/-- The clients map fetch_clients_map builds from c8_cRows. -/
def c8_clients_map : Table String Int :=
  match fetch_clients_map c8_cRows with
  | Except.ok m => m
  | Except.error _ => emptyTable

/-- The transformed rows of the two-received-one-skipped boletos batch. -/
def c8_rows : List (String × BoletoRow) :=
  match transform_boleto_data c8_batch (fetch_clientes_mapping []) with
  | Except.ok rs => rs
  | Except.error _ => []

set_option maxRecDepth 65536 in
/-- Claim C8 witness: a committed orders run over one received and one
processed order reports synced counts 1, 1 and 0, and the boletos run
over the two-received batch reports upserted and total_available equal
to the transformed count 1. -/
theorem c8_summary_amended_witness :
    (fetch_clients_map c8_cRows = Except.ok c8_clients_map
     ∧ process_orders [c8_order] c8_clients_map ≠ []
     ∧ sync_all_orders c8_cRows [c8_order] emptyTable =
         Except.ok (insertIgnoreFold emptyTable (process_orders [c8_order] c8_clients_map),
           OrdersOutcome.synced 1 1 0))
    ∧ (transform_boleto_data c8_batch (fetch_clientes_mapping []) = Except.ok c8_rows
       ∧ sync_boletos [] c8_batch emptyTable =
           Except.ok (upsertFold emptyTable c8_rows, c8_rows.length, c8_rows.length)
       ∧ c8_rows.length = 1 ∧ c8_batch.length = 2) :=
  ⟨⟨rfl, by decide,
    c8_summary_amended.1 c8_cRows [c8_order] emptyTable c8_clients_map rfl (by decide)⟩,
   ⟨rfl, c8_summary_amended.2 [] c8_batch emptyTable c8_rows rfl, rfl, rfl⟩⟩

/-- C9: the boletos synchronization reconciles at most one page per run:
the endpoint invokes the fetch exactly once with its defaults page = 1
and pageSize = PAGE_SIZE, so the records it processes are exactly the
first PAGE_SIZE of the remote unpaid boletos and never more than
PAGE_SIZE, however many exist remotely. -/
theorem c9_boletos_single_page (cRows : List (Int × Option String)) (remote : List RawItem)
    (db : Table String BoletoRow) :
    sync_boletos_endpoint cRows remote db = sync_boletos cRows (remote.take PAGE_SIZE) db
    ∧ (fetch_boletos_from_api remote 1 PAGE_SIZE).length ≤ PAGE_SIZE := by
  constructor
  · rfl
  · show (List.take PAGE_SIZE (List.drop ((1 - 1) * PAGE_SIZE) remote)).length ≤ PAGE_SIZE
    rw [List.length_take]
    exact min_le_left _ _

/-- Claim C10 counterexample: on the input "()" — non-empty but made
only of removed characters — clean_phone returns the empty string, and a
second application turns that into None, so clean_phone composed with
itself differs from clean_phone at this input: it is not idempotent. -/
theorem c10_clean_phone_not_idempotent :
    clean_phone (some "()") = some ""
    ∧ clean_phone (clean_phone (some "()")) = Option.none
    ∧ (Option.none : Option String) ≠ some "" :=
  ⟨rfl, rfl, by simp⟩

/-- C10 as amended: clean_phone returns None for every null or empty
input, its output never contains a parenthesis, whitespace or hyphen
character, and it is idempotent at every input whose cleaned result is
non-empty; for a non-empty input made only of removed characters the
result is the empty string, which a second application sends to None
(the counterexample). -/
theorem c10_clean_phone_amended :
    (clean_phone Option.none = Option.none ∧ clean_phone (some "") = Option.none)
    ∧ (∀ s t : String, clean_phone (some s) = some t → ∀ c ∈ t.data, removedChar c = false)
    ∧ (∀ (x : Option String) (t : String), clean_phone x = some t → t ≠ "" →
        clean_phone (clean_phone x) = clean_phone x) := by
  refine ⟨⟨rfl, rfl⟩, ?_, ?_⟩
  · intro s t h c hc
    simp only [clean_phone] at h
    by_cases hs : s = ""
    · rw [if_pos hs] at h
      exact absurd h (by simp)
    · rw [if_neg hs] at h
      injection h with h2
      rw [← h2] at hc
      have hc2 : c ∈ s.data.filter (fun c => !(removedChar c)) := hc
      have h3 := (List.mem_filter.mp hc2).2
      simpa using h3
  · intro x t h ht
    match x with
    | Option.none => exact absurd h (by simp [clean_phone])
    | some s =>
      simp only [clean_phone] at h
      by_cases hs : s = ""
      · rw [if_pos hs] at h
        exact absurd h (by simp)
      · rw [if_neg hs] at h
        injection h with h2
        have hcs : clean_phone (some s) = some t := by
          simp only [clean_phone]
          rw [if_neg hs, h2]
        rw [hcs]
        simp only [clean_phone]
        rw [if_neg ht]
        congr 1
        rw [← h2]
        show String.mk (((String.mk (s.data.filter (fun c => !(removedChar c)))).data).filter
          (fun c => !(removedChar c))) = String.mk (s.data.filter (fun c => !(removedChar c)))
        congr 1
        show (s.data.filter (fun c => !(removedChar c))).filter (fun c => !(removedChar c)) =
          s.data.filter (fun c => !(removedChar c))
        refine List.filter_eq_self.mpr ?_
        intro a ha
        exact (List.mem_filter.mp ha).2

/-- Claim C10 witness: the phone "(11) 98-7" cleans to "11987", which is
non-empty, contains no removed character, and is a fixed point of a
second application of clean_phone. -/
theorem c10_clean_phone_amended_witness :
    clean_phone (some "(11) 98-7") = some "11987"
    ∧ "11987" ≠ ""
    ∧ (∀ c ∈ ("11987" : String).data, removedChar c = false)
    ∧ clean_phone (clean_phone (some "(11) 98-7")) = clean_phone (some "(11) 98-7") :=
  ⟨rfl, by decide,
   fun c hc => c10_clean_phone_amended.2.1 "(11) 98-7" "11987" rfl c hc,
   c10_clean_phone_amended.2.2 (some "(11) 98-7") "11987" rfl (by decide)⟩
